import Mathlib

/-!
Shallow embedding of the Kagi API client (src/index.ts).

JavaScript objects used as parameter maps are modelled as ordered
association lists (`Obj`); the object-spread operator is modelled by
`merge`, which assigns the right operand's entries left-to-right onto
the left operand, overwriting an existing key in place and appending a
fresh key at the end, exactly as the ECMAScript spread semantics on
plain objects. External primitives explicitly out of scope for the
library (percent-encoding inside `URLSearchParams`, JSON
serialization, the WHATWG URL parser, the fetch transport) are kept
abstract: the query string is the ampersand-join of the encoded pairs,
a POST body carries the object handed to `JSON.stringify`, the URL
parse-success test is a caller-supplied boolean function, and the
request executor receives the transport's status and the parsed JSON
body as inputs.
-/

namespace Kagi

/-- A JavaScript value appearing in parameter maps: string, number,
boolean, `null` or `undefined`. -/
inductive JValue where
  | str (s : String)
  | num (n : Int)
  | bool (b : Bool)
  | null
  | undef
deriving Repr, DecidableEq

/-- A JavaScript object as an ordered association list of own
enumerable properties. -/
abbrev Obj := List (String × JValue)

/-- Keys of an object, in insertion order. -/
def objKeys (o : Obj) : List String := o.map Prod.fst

/-- Property lookup: value of the first entry whose key matches. -/
def lookupKV : Obj → String → Option JValue
  | [], _ => none
  | p :: t, k => if p.1 = k then some p.2 else lookupKV t k

/-- Property assignment `o[k] = v`: overwrite the existing entry in
place, or append the new key at the end. -/
def insertKV : Obj → String → JValue → Obj
  | [], k, v => [(k, v)]
  | p :: t, k, v => if p.1 = k then (k, v) :: t else p :: insertKV t k v

/-- Object spread `\x7b...a, ...b\x7d`: assign every entry of `b` onto `a`
in order. -/
def merge (a b : Obj) : Obj := b.foldl (fun acc p => insertKV acc p.1 p.2) a

/-- The JavaScript loose test `v != null`, true for every value other
than `null` and `undefined`. -/
def jsNonNull : JValue → Bool
  | .null => false
  | .undef => false
  | _ => true

/-- The JavaScript `String(v)` conversion applied to parameter values. -/
def jsString : JValue → String
  | .str s => s
  | .num n => toString n
  | .bool b => if b then "true" else "false"
  | .null => "null"
  | .undef => "undefined"

/-- `Object.entries(data).filter(([_, v]) => v != null).map(([k, v]) => [k, String(v)])`,
the pair list handed to `new URLSearchParams` on every GET path. -/
def toQueryPairs (o : Obj) : List (String × String) :=
  (o.filter (fun p => jsNonNull p.2)).map (fun p => (p.1, jsString p.2))

/-- Lookup in the encoded query-pair list, used to state that a key is
absent from a query string. -/
def lookupQS : List (String × String) → String → Option String
  | [], _ => none
  | p :: t, k => if p.1 = k then some p.2 else lookupQS t k

/-- Serialization of `URLSearchParams` into the query string:
ampersand-join of `key=value` pairs (percent-encoding is an external
encoding primitive and is kept abstract). -/
def urlSearchParams (ps : List (String × String)) : String :=
  String.intercalate "&" (ps.map (fun p => p.1 ++ "=" ++ p.2))

/-- `toUrlStr(...elems)` from src/index.ts: join the segments with a
slash separator. -/
def toUrlStr (elems : List String) : String :=
  String.intercalate "/" elems

/-- Modelled from the spec: the base API URL constant
`KAGI_BASE_API_URL` lives in the request module, which is not among
the provided sources; no claim depends on its exact value, only on
its position as the first joined URL segment. -/
def KAGI_BASE_API_URL : String := "https://kagi.com/api"

/-- Modelled from the spec: the default API version `KAGI_API_VERSIONS.v0`,
the version segment used when settings carry no explicit version
(spec section 3: version defaults to v0). -/
def KAGI_API_VERSIONS_v0 : String := "v0"

/-- Modelled from the spec: endpoint path segment of `summarize`
(spec section 6 table). -/
def KAGI_SUMMARIZER_ENDPOINT : String := "summarize"

/-- Modelled from the spec: endpoint path segment of `search`. -/
def KAGI_SEARCH_ENDPOINT : String := "search"

/-- Modelled from the spec: endpoint path segment of `fastgpt`. -/
def KAGI_FASTGPT_ENDPOINT : String := "fastgpt"

/-- Modelled from the spec: first path segment of the enrichment
endpoints. -/
def KAGI_ENRICHMENT_ENDPOINT : String := "enrich"

/-- Modelled from the spec: the `web` enrichment sub-path. -/
def KAGI_ENRICHMENT_WEB : String := "web"

/-- Modelled from the spec: the `news` enrichment sub-path. -/
def KAGI_ENRICHMENT_NEWS : String := "news"

/-- Caller-supplied settings (`Settings` from the settings module):
token, optional version, optional per-endpoint default parameters.
An absent optional field is `none`. -/
structure Settings where
  token : String
  version : Option String
  summarizerDefaults : Option Obj
  searchDefaults : Option Obj
  fastGPTDefaults : Option Obj
deriving Repr, DecidableEq

/-- `IntSettings`: settings held by the client after construction,
with the version made mandatory. -/
structure IntSettings where
  token : String
  version : String
  summarizerDefaults : Option Obj
  searchDefaults : Option Obj
  fastGPTDefaults : Option Obj
deriving Repr, DecidableEq

/-- The constructor `this.settings = \x7b...\x7bversion: KAGI_API_VERSIONS.v0\x7d, ...settings\x7d`:
an absent version falls back to v0, every other field is taken from
the caller's settings. -/
def mkSettings (s : Settings) : IntSettings :=
  { token := s.token
    version := s.version.getD KAGI_API_VERSIONS_v0
    summarizerDefaults := s.summarizerDefaults
    searchDefaults := s.searchDefaults
    fastGPTDefaults := s.fastGPTDefaults }

/-- The `RequestInit` built by each method: HTTP method, header list,
and for POST the object handed to `JSON.stringify` (JSON
serialization itself is an external primitive). -/
structure ReqInit where
  method : String
  headers : List (String × String)
  body : Option Obj
deriving Repr, DecidableEq

/-- One fully-built outbound request: final URL plus `RequestInit`. -/
structure Request where
  url : String
  init : ReqInit
deriving Repr, DecidableEq

/-- The parameter object built by `summarize` before branching on the
HTTP method: defaults spread-merged with options, then the
input-derived field (`url` on URL parse success, `text` otherwise)
assigned on top. `isUrl` stands for the parse-success test of the
external `new URL(input)` constructor. -/
def summarizeData (s : IntSettings) (isUrl : String → Bool) (input : String)
    (options : Option Obj) : Obj :=
  let data := merge (s.summarizerDefaults.getD []) (options.getD [])
  if isUrl input then merge data [("url", JValue.str input)]
  else merge data [("text", JValue.str input)]

/-- `Kagi.summarize`: GET serializes the merged parameters into the
query string and sends no body; any other method value (or none)
yields a POST with the JSON body and the bare URL. -/
def summarize (s : IntSettings) (isUrl : String → Bool) (input : String)
    (options : Option Obj) (method : Option String) : Request :=
  let data := summarizeData s isUrl input options
  let url := toUrlStr [KAGI_BASE_API_URL, s.version, KAGI_SUMMARIZER_ENDPOINT]
  if method = some "GET" then
    { url := url ++ "?" ++ urlSearchParams (toQueryPairs data)
      init :=
        { method := "GET"
          headers := [("Authorization", "Bot " ++ s.token),
                      ("Accept", "application/json")]
          body := none } }
  else
    { url := url
      init :=
        { method := "POST"
          headers := [("Authorization", "Bot " ++ s.token),
                      ("Accept", "application/json"),
                      ("Content-Type", "application/json")]
          body := some data } }

/-- The parameter object of `search`:
`\x7b...\x7bq: query\x7d, ...\x7b...searchDefaults, ...options\x7d\x7d`. -/
def searchParams (s : IntSettings) (query : String) (options : Option Obj) : Obj :=
  merge [("q", JValue.str query)] (merge (s.searchDefaults.getD []) (options.getD []))

/-- `Kagi.search`: always a GET with the merged parameters in the
query string and the Authorization header only. -/
def search (s : IntSettings) (query : String) (options : Option Obj) : Request :=
  { url := toUrlStr [KAGI_BASE_API_URL, s.version, KAGI_SEARCH_ENDPOINT]
      ++ "?" ++ urlSearchParams (toQueryPairs (searchParams s query options))
    init :=
      { method := "GET"
        headers := [("Authorization", "Bot " ++ s.token)]
        body := none } }

/-- The parameter object of `fastgpt`:
`\x7b...\x7bquery\x7d, ...\x7b...fastGPTDefaults, ...options\x7d\x7d`. -/
def fastgptData (s : IntSettings) (query : String) (options : Option Obj) : Obj :=
  merge [("query", JValue.str query)] (merge (s.fastGPTDefaults.getD []) (options.getD []))

/-- `Kagi.fastgpt`: always a POST with the JSON body and the three
headers. -/
def fastgpt (s : IntSettings) (query : String) (options : Option Obj) : Request :=
  { url := toUrlStr [KAGI_BASE_API_URL, s.version, KAGI_FASTGPT_ENDPOINT]
    init :=
      { method := "POST"
        headers := [("Authorization", "Bot " ++ s.token),
                    ("Accept", "application/json"),
                    ("Content-Type", "application/json")]
        body := some (fastgptData s query options) } }

/-- `Kagi.baseEnrich`: GET to the given URL with `\x7bq\x7d` as the only
parameter, Authorization and Accept headers. -/
def baseEnrich (s : IntSettings) (u : String) (q : String) : Request :=
  { url := u ++ "?" ++ urlSearchParams (toQueryPairs [("q", JValue.str q)])
    init :=
      { method := "GET"
        headers := [("Authorization", "Bot " ++ s.token),
                    ("Accept", "application/json")]
        body := none } }

/-- `Kagi.enrichWeb`. -/
def enrichWeb (s : IntSettings) (query : String) : Request :=
  baseEnrich s
    (toUrlStr [KAGI_BASE_API_URL, s.version, KAGI_ENRICHMENT_ENDPOINT, KAGI_ENRICHMENT_WEB])
    query

/-- `Kagi.enrichNews`. -/
def enrichNews (s : IntSettings) (query : String) : Request :=
  baseEnrich s
    (toUrlStr [KAGI_BASE_API_URL, s.version, KAGI_ENRICHMENT_ENDPOINT, KAGI_ENRICHMENT_NEWS])
    query

/-- `Kagi.enrich`: `type === 'web' ? this.enrichWeb(query) : this.enrichNews(query)`.
The type is a string at runtime, so every non-web value takes the
news branch. -/
def enrich (s : IntSettings) (query : String) (type : String) : Request :=
  if type = "web" then enrichWeb s query else enrichNews s query

/-- The API-reported error descriptor found in a response body
(code, message). -/
structure KagiErrDescriptor where
  code : Int
  msg : String
deriving Repr, DecidableEq

/-- The raw transport response visible before body parsing: status and
headers (the unparsed body stream stays abstract). -/
structure RawResponse where
  status : Nat
  headers : List (String × String)
deriving Repr, DecidableEq

/-- The parsed JSON response envelope: an optional error descriptor
plus the remaining payload fields, opaque to the client. -/
structure KagiResponseV where
  error : Option KagiErrDescriptor
  data : Obj
deriving Repr, DecidableEq

/-- `KagiError`: URL, request descriptor, raw response, and the API
error descriptor when one was parsed. -/
structure KagiError where
  url : String
  req : ReqInit
  response : RawResponse
  error : Option KagiErrDescriptor
deriving Repr, DecidableEq

/-- The shared request executor `request(url, req)` of src/index.ts.
The fetch transport and JSON parsing are external, so the executor is
modelled as a function of the transport's raw response and of the
parsed body: status other than 200 throws a `KagiError` without a
descriptor, a parsed `error` field throws a `KagiError` carrying it,
otherwise the parsed body is the result. -/
def request (url : String) (req : ReqInit) (res : RawResponse)
    (json : KagiResponseV) : Except KagiError KagiResponseV :=
  if res.status ≠ 200 then
    Except.error { url := url, req := req, response := res, error := none }
  else
    match json.error with
    | some e => Except.error { url := url, req := req, response := res, error := some e }
    | none => Except.ok json

theorem objKeys_nil : objKeys [] = [] := rfl

theorem objKeys_cons (p : String × JValue) (t : Obj) :
    objKeys (p :: t) = p.1 :: objKeys t := rfl

theorem lookupKV_insertKV_self (o : Obj) (k : String) (v : JValue) :
    lookupKV (insertKV o k v) k = some v := by
  induction o with
  | nil => simp [insertKV, lookupKV]
  | cons p t ih =>
    by_cases hp : p.1 = k
    · simp [insertKV, hp, lookupKV]
    · simp [insertKV, hp, lookupKV, ih]

theorem lookupKV_insertKV_ne (o : Obj) (k k' : String) (v : JValue)
    (h : k' ≠ k) : lookupKV (insertKV o k v) k' = lookupKV o k' := by
  have hkk' : ¬ k = k' := fun h' => h h'.symm
  induction o with
  | nil =>
    simp only [insertKV, lookupKV]
    rw [if_neg hkk']
  | cons p t ih =>
    by_cases hp : p.1 = k
    · simp only [insertKV, if_pos hp, lookupKV, hp]
      rw [if_neg hkk', if_neg hkk']
    · simp [insertKV, hp, lookupKV, ih]

theorem lookupKV_eq_none_of_not_mem (o : Obj) (k : String)
    (h : k ∉ objKeys o) : lookupKV o k = none := by
  induction o with
  | nil => rfl
  | cons p t ih =>
    simp only [objKeys_cons, List.mem_cons] at h
    push_neg at h
    simp only [lookupKV, if_neg (fun h' : p.1 = k => h.1 h'.symm)]
    exact ih h.2

theorem lookupKV_merge_none (a b : Obj) (k : String)
    (h : lookupKV b k = none) : lookupKV (merge a b) k = lookupKV a k := by
  induction b generalizing a with
  | nil => rfl
  | cons p t ih =>
    simp only [lookupKV] at h
    by_cases hp : p.1 = k
    · rw [if_pos hp] at h
      simp at h
    · rw [if_neg hp] at h
      show lookupKV (merge (insertKV a p.1 p.2) t) k = lookupKV a k
      rw [ih _ h, lookupKV_insertKV_ne a p.1 k p.2 (fun h' => hp h'.symm)]

theorem mem_objKeys_insertKV (o : Obj) (k k' : String) (v : JValue)
    (h : k' ∈ objKeys (insertKV o k v)) : k' ∈ objKeys o ∨ k' = k := by
  induction o with
  | nil =>
    simp [insertKV, objKeys] at h
    exact Or.inr h
  | cons p t ih =>
    by_cases hp : p.1 = k
    · simp only [insertKV, if_pos hp, objKeys_cons, List.mem_cons] at h
      rcases h with h | h
      · exact Or.inr h
      · exact Or.inl (by simp [objKeys_cons, List.mem_cons, h])
    · simp only [insertKV, if_neg hp, objKeys_cons, List.mem_cons] at h
      rcases h with h | h
      · exact Or.inl (by simp [objKeys_cons, List.mem_cons, h])
      · rcases ih h with h' | h'
        · exact Or.inl (by simp [objKeys_cons, List.mem_cons, h'])
        · exact Or.inr h'

theorem nodup_objKeys_insertKV (o : Obj) (k : String) (v : JValue)
    (h : (objKeys o).Nodup) : (objKeys (insertKV o k v)).Nodup := by
  induction o with
  | nil => simp [insertKV, objKeys]
  | cons p t ih =>
    simp only [objKeys_cons, List.nodup_cons] at h
    by_cases hp : p.1 = k
    · simp only [insertKV, if_pos hp, objKeys_cons, List.nodup_cons]
      exact ⟨by rw [← hp]; exact h.1, h.2⟩
    · simp only [insertKV, if_neg hp, objKeys_cons, List.nodup_cons]
      refine ⟨fun hmem => ?_, ih h.2⟩
      rcases mem_objKeys_insertKV t k p.1 v hmem with h' | h'
      · exact h.1 h'
      · exact hp h'

theorem nodup_objKeys_merge (a b : Obj)
    (h : (objKeys a).Nodup) : (objKeys (merge a b)).Nodup := by
  induction b generalizing a with
  | nil => exact h
  | cons p t ih =>
    show (objKeys (merge (insertKV a p.1 p.2) t)).Nodup
    exact ih _ (nodup_objKeys_insertKV a p.1 p.2 h)

theorem lookupKV_merge_some (a b : Obj) (k : String) (v : JValue)
    (hb : (objKeys b).Nodup) (h : lookupKV b k = some v) :
    lookupKV (merge a b) k = some v := by
  induction b generalizing a with
  | nil => simp [lookupKV] at h
  | cons p t ih =>
    simp only [objKeys_cons, List.nodup_cons] at hb
    simp only [lookupKV] at h
    by_cases hp : p.1 = k
    · rw [if_pos hp] at h
      have ht : lookupKV t k = none :=
        lookupKV_eq_none_of_not_mem t k (by rw [← hp]; exact hb.1)
      show lookupKV (merge (insertKV a p.1 p.2) t) k = some v
      rw [lookupKV_merge_none _ _ _ ht, ← hp, lookupKV_insertKV_self]
      exact h
    · rw [if_neg hp] at h
      show lookupKV (merge (insertKV a p.1 p.2) t) k = some v
      exact ih _ hb.2 h

theorem toQueryPairs_cons (p : String × JValue) (t : Obj) :
    toQueryPairs (p :: t) =
      if jsNonNull p.2 then (p.1, jsString p.2) :: toQueryPairs t
      else toQueryPairs t := by
  by_cases hv : jsNonNull p.2
  · simp [toQueryPairs, List.filter_cons, hv]
  · simp [toQueryPairs, List.filter_cons, hv]

theorem lookupQS_toQueryPairs_eq_none (o : Obj) (k : String)
    (h : k ∉ objKeys o) : lookupQS (toQueryPairs o) k = none := by
  induction o with
  | nil => rfl
  | cons p t ih =>
    simp only [objKeys_cons, List.mem_cons] at h
    push_neg at h
    rw [toQueryPairs_cons]
    by_cases hv : jsNonNull p.2
    · rw [if_pos hv]
      simp only [lookupQS, if_neg (fun h' : p.1 = k => h.1 h'.symm)]
      exact ih h.2
    · rw [if_neg hv]
      exact ih h.2

theorem lookupQS_toQueryPairs_filtered (o : Obj) (k : String) (v : JValue)
    (ho : (objKeys o).Nodup) (h : lookupKV o k = some v)
    (hv : jsNonNull v = false) : lookupQS (toQueryPairs o) k = none := by
  induction o with
  | nil => simp [lookupKV] at h
  | cons p t ih =>
    simp only [objKeys_cons, List.nodup_cons] at ho
    simp only [lookupKV] at h
    rw [toQueryPairs_cons]
    by_cases hp : p.1 = k
    · rw [if_pos hp] at h
      injection h with h
      rw [if_neg (by rw [h, hv]; simp)]
      exact lookupQS_toQueryPairs_eq_none t k (by rw [← hp]; exact ho.1)
    · rw [if_neg hp] at h
      by_cases hq : jsNonNull p.2
      · rw [if_pos hq]
        simp only [lookupQS, if_neg hp]
        exact ih ho.2 h
      · rw [if_neg hq]
        exact ih ho.2 h

theorem lookupKV_summarizeData_derived (s : IntSettings) (isUrl : String → Bool)
    (input : String) (options : Option Obj) :
    lookupKV (summarizeData s isUrl input options)
      (if isUrl input then "url" else "text") = some (JValue.str input) := by
  unfold summarizeData
  by_cases h : isUrl input
  · simp only [h, if_pos]
    exact lookupKV_merge_some _ _ _ _ (by simp [objKeys]) (by simp [lookupKV])
  · simp only [h, Bool.false_eq_true, if_false]
    exact lookupKV_merge_some _ _ _ _ (by simp [objKeys]) (by simp [lookupKV])

end Kagi

open Kagi

/-- C6: for every query string and client settings, `enrich(query, "web")`
produces exactly the outbound request of `enrichWeb(query)` (same URL,
method, headers and body), and `enrich(query, "news")` produces exactly
the outbound request of `enrichNews(query)`. -/
theorem C6_enrich_dispatch_equivalence (s : IntSettings) (query : String) :
    enrich s query "web" = enrichWeb s query ∧
    enrich s query "news" = enrichNews s query := by
  constructor
  · unfold enrich
    rw [if_pos rfl]
  · unfold enrich
    rw [if_neg (by decide)]

/-- C8: every search call issues a GET to the search endpoint path with
the merged parameters in the query string, the Authorization header
`Bot <token>` as the only header (no Accept), and no body. -/
theorem C8_search_request_shape (s : IntSettings) (query : String)
    (options : Option Obj) :
    search s query options =
      { url := toUrlStr [KAGI_BASE_API_URL, s.version, KAGI_SEARCH_ENDPOINT]
          ++ "?" ++ urlSearchParams (toQueryPairs (searchParams s query options))
        init :=
          { method := "GET"
            headers := [("Authorization", "Bot " ++ s.token)]
            body := none } } := rfl

/-- C9: in summarize, the input-derived field (`url` when the input
parses as a URL, `text` otherwise) is merged after defaults and
options, so in the final parameters it always equals the input
argument; any conflicting `url` or `text` entry from defaults or
options is overwritten. -/
theorem C9_summarize_input_field_wins (s : IntSettings) (isUrl : String → Bool)
    (input : String) (options : Option Obj) :
    lookupKV (summarizeData s isUrl input options)
      (if isUrl input then "url" else "text") = some (JValue.str input) :=
  lookupKV_summarizeData_derived s isUrl input options

/-- C10: enrich dispatches to enrichWeb exactly when the type string is
"web"; every other runtime type value takes the news branch, so
enrichNews is the catch-all. -/
theorem C10_enrich_catch_all (s : IntSettings) (query : String) :
    enrich s query "web" = enrichWeb s query ∧
    ∀ type : String, type ≠ "web" → enrich s query type = enrichNews s query := by
  refine ⟨by unfold enrich; rw [if_pos rfl], fun ty hty => ?_⟩
  unfold enrich
  rw [if_neg hty]

/-- Witness for C10 at the concrete types "news" and "rss". -/
theorem C10_enrich_catch_all_witness :
    enrich ⟨"t", "v0", none, none, none⟩ "q" "rss"
      = enrichNews ⟨"t", "v0", none, none, none⟩ "q" ∧
    enrich ⟨"t", "v0", none, none, none⟩ "q" "web"
      = enrichWeb ⟨"t", "v0", none, none, none⟩ "q" :=
  ⟨(C10_enrich_catch_all ⟨"t", "v0", none, none, none⟩ "q").2 "rss" (by decide),
   (C10_enrich_catch_all ⟨"t", "v0", none, none, none⟩ "q").1⟩

/-- C2: for every call through the shared executor, a non-200 status
fails with a transport error carrying URL, request descriptor and raw
response but no API descriptor, and independently of the body (the
body is not parsed); a 200 status with an error descriptor in the
parsed body fails with an API error carrying that descriptor; a 200
status without one returns the parsed body, so exactly one of success
or failure is produced (the result is a single `Except` value). -/
theorem C2_request_executor (url : String) (req : ReqInit) (res : RawResponse)
    (json : KagiResponseV) :
    (res.status ≠ 200 →
      request url req res json
        = Except.error { url := url, req := req, response := res, error := none } ∧
      ∀ json' : KagiResponseV, request url req res json' = request url req res json) ∧
    (res.status = 200 → ∀ e, json.error = some e →
      request url req res json
        = Except.error { url := url, req := req, response := res, error := some e }) ∧
    (res.status = 200 → json.error = none →
      request url req res json = Except.ok json) := by
  refine ⟨fun h => ⟨?_, fun json' => ?_⟩, fun h e he => ?_, fun h he => ?_⟩
  · unfold request
    rw [if_pos h]
  · unfold request
    rw [if_pos h, if_pos h]
  · unfold request
    rw [if_neg (by simp [h]), he]
  · unfold request
    rw [if_neg (by simp [h]), he]

/-- Witness for C2 at status 404, and at status 200 with and without an
error descriptor in the parsed body. -/
theorem C2_request_executor_witness :
    request "u" ⟨"GET", [], none⟩ ⟨404, []⟩ ⟨none, []⟩
      = Except.error ⟨"u", ⟨"GET", [], none⟩, ⟨404, []⟩, none⟩ ∧
    request "u" ⟨"GET", [], none⟩ ⟨200, []⟩ ⟨some ⟨1, "bad"⟩, []⟩
      = Except.error ⟨"u", ⟨"GET", [], none⟩, ⟨200, []⟩, some ⟨1, "bad"⟩⟩ ∧
    request "u" ⟨"GET", [], none⟩ ⟨200, []⟩ ⟨none, []⟩ = Except.ok ⟨none, []⟩ :=
  ⟨((C2_request_executor "u" ⟨"GET", [], none⟩ ⟨404, []⟩ ⟨none, []⟩).1 (by decide)).1,
   (C2_request_executor "u" ⟨"GET", [], none⟩ ⟨200, []⟩ ⟨some ⟨1, "bad"⟩, []⟩).2.1
     rfl ⟨1, "bad"⟩ rfl,
   (C2_request_executor "u" ⟨"GET", [], none⟩ ⟨200, []⟩ ⟨none, []⟩).2.2 rfl rfl⟩

/-- C3 (counterexample): the claim's "and no text field" fails on the
code as soon as the configured summarizer defaults (or options)
supply a `text` key: with defaults `\x7btext: "a"\x7d` and the
URL-parseable input "https://example.com", summarize only assigns
`url` on top of the merge, so the final parameters contain both
`url = input` and `text = "a"`. -/
theorem C3_counterexample :
    lookupKV (summarizeData ⟨"t", "v0", some [("text", JValue.str "a")], none, none⟩
        (fun _ => true) "https://example.com" none) "url"
      = some (JValue.str "https://example.com") ∧
    lookupKV (summarizeData ⟨"t", "v0", some [("text", JValue.str "a")], none, none⟩
        (fun _ => true) "https://example.com" none) "text"
      = some (JValue.str "a") :=
  ⟨rfl, rfl⟩

/-- C3 (amended): for every summarize input whose URL parse-test
succeeds, the parameters always carry `url` equal to the input, and
carry no `text` entry provided neither the configured summarizer
defaults nor the call-time options supply one; when the parse-test
fails they always carry `text` equal to the input, and no `url` entry
under the same proviso (summarize itself only ever assigns the
branch-selected field; the opposite field can come only from the
defaults/options merge). -/
theorem C3_summarize_url_vs_text (s : IntSettings) (isUrl : String → Bool)
    (input : String) (options : Option Obj) :
    (isUrl input = true →
      lookupKV (summarizeData s isUrl input options) "url" = some (JValue.str input) ∧
      (lookupKV (s.summarizerDefaults.getD []) "text" = none →
        lookupKV (options.getD []) "text" = none →
        lookupKV (summarizeData s isUrl input options) "text" = none)) ∧
    (isUrl input = false →
      lookupKV (summarizeData s isUrl input options) "text" = some (JValue.str input) ∧
      (lookupKV (s.summarizerDefaults.getD []) "url" = none →
        lookupKV (options.getD []) "url" = none →
        lookupKV (summarizeData s isUrl input options) "url" = none)) := by
  constructor
  · intro h
    unfold summarizeData
    simp only [h, if_pos]
    refine ⟨lookupKV_merge_some _ _ _ _ (by simp [objKeys]) (by simp [lookupKV]),
      fun hd2 ho2 => ?_⟩
    rw [lookupKV_merge_none _ _ _ (by simp [lookupKV]),
      lookupKV_merge_none _ _ _ ho2]
    exact hd2
  · intro h
    unfold summarizeData
    simp only [h, Bool.false_eq_true, if_false]
    refine ⟨lookupKV_merge_some _ _ _ _ (by simp [objKeys]) (by simp [lookupKV]),
      fun hd1 ho1 => ?_⟩
    rw [lookupKV_merge_none _ _ _ (by simp [lookupKV]),
      lookupKV_merge_none _ _ _ ho1]
    exact hd1

/-- Witness for C3: with defaults and options supplying neither key, a
URL-parseable input sets `url` and no `text`; a plain-text input sets
`text` and no `url`. -/
theorem C3_summarize_url_vs_text_witness :
    (lookupKV (summarizeData ⟨"t", "v0", none, none, none⟩ (fun _ => true)
        "https://example.com" none) "url" = some (JValue.str "https://example.com") ∧
     lookupKV (summarizeData ⟨"t", "v0", none, none, none⟩ (fun _ => true)
        "https://example.com" none) "text" = none) ∧
    (lookupKV (summarizeData ⟨"t", "v0", none, none, none⟩ (fun _ => false)
        "hello world" none) "text" = some (JValue.str "hello world") ∧
     lookupKV (summarizeData ⟨"t", "v0", none, none, none⟩ (fun _ => false)
        "hello world" none) "url" = none) :=
  ⟨⟨((C3_summarize_url_vs_text ⟨"t", "v0", none, none, none⟩ (fun _ => true)
      "https://example.com" none).1 rfl).1,
    ((C3_summarize_url_vs_text ⟨"t", "v0", none, none, none⟩ (fun _ => true)
      "https://example.com" none).1 rfl).2 rfl rfl⟩,
   ⟨((C3_summarize_url_vs_text ⟨"t", "v0", none, none, none⟩ (fun _ => false)
      "hello world" none).2 rfl).1,
    ((C3_summarize_url_vs_text ⟨"t", "v0", none, none, none⟩ (fun _ => false)
      "hello world" none).2 rfl).2 rfl rfl⟩⟩

/-- C4: a summarize call with method "GET" issues a GET whose URL
carries the serialized merged parameters and whose request has no
body; with an absent or non-GET method it issues a POST carrying the
JSON body, with no query string appended to the URL. -/
theorem C4_summarize_method_branch (s : IntSettings) (isUrl : String → Bool)
    (input : String) (options : Option Obj) (method : Option String) :
    (method = some "GET" →
      summarize s isUrl input options method =
        { url := toUrlStr [KAGI_BASE_API_URL, s.version, KAGI_SUMMARIZER_ENDPOINT]
            ++ "?" ++ urlSearchParams (toQueryPairs (summarizeData s isUrl input options))
          init :=
            { method := "GET"
              headers := [("Authorization", "Bot " ++ s.token),
                          ("Accept", "application/json")]
              body := none } }) ∧
    (method ≠ some "GET" →
      summarize s isUrl input options method =
        { url := toUrlStr [KAGI_BASE_API_URL, s.version, KAGI_SUMMARIZER_ENDPOINT]
          init :=
            { method := "POST"
              headers := [("Authorization", "Bot " ++ s.token),
                          ("Accept", "application/json"),
                          ("Content-Type", "application/json")]
              body := some (summarizeData s isUrl input options) } }) := by
  constructor
  · intro h
    subst h
    rfl
  · intro h
    simp only [summarize]
    rw [if_neg h]

/-- Witness for C4 at a concrete GET call and a concrete default
(method-less) call. -/
theorem C4_summarize_method_branch_witness :
    (summarize ⟨"t", "v0", none, none, none⟩ (fun _ => false) "hi" none
      (some "GET")).init.body = none ∧
    (summarize ⟨"t", "v0", none, none, none⟩ (fun _ => false) "hi" none
      none).init.method = "POST" := by
  constructor
  · rw [(C4_summarize_method_branch ⟨"t", "v0", none, none, none⟩ (fun _ => false)
      "hi" none (some "GET")).1 rfl]
  · rw [(C4_summarize_method_branch ⟨"t", "v0", none, none, none⟩ (fun _ => false)
      "hi" none none).2 (by decide)]

/-- C5: an entry whose value is null or undefined is excluded from the
filtered pair list serialized into every GET query string (summarize
with method "GET", search, enrichWeb, enrichNews all serialize
`toQueryPairs` of their parameters), while summarize's POST branch
hands the merged parameter object to the JSON body unfiltered. -/
theorem C5_null_filtering (s : IntSettings) (isUrl : String → Bool)
    (input query enrichQuery : String) (options : Option Obj)
    (o : Obj) (k : String) (v : JValue)
    (ho : (objKeys o).Nodup) (hkv : lookupKV o k = some v)
    (hnull : jsNonNull v = false) :
    lookupQS (toQueryPairs o) k = none ∧
    (summarize s isUrl input options (some "GET")).url
      = toUrlStr [KAGI_BASE_API_URL, s.version, KAGI_SUMMARIZER_ENDPOINT] ++ "?"
        ++ urlSearchParams (toQueryPairs (summarizeData s isUrl input options)) ∧
    (search s query options).url
      = toUrlStr [KAGI_BASE_API_URL, s.version, KAGI_SEARCH_ENDPOINT] ++ "?"
        ++ urlSearchParams (toQueryPairs (searchParams s query options)) ∧
    (enrichWeb s enrichQuery).url
      = toUrlStr [KAGI_BASE_API_URL, s.version, KAGI_ENRICHMENT_ENDPOINT,
          KAGI_ENRICHMENT_WEB]
        ++ "?" ++ urlSearchParams (toQueryPairs [("q", JValue.str enrichQuery)]) ∧
    (enrichNews s enrichQuery).url
      = toUrlStr [KAGI_BASE_API_URL, s.version, KAGI_ENRICHMENT_ENDPOINT,
          KAGI_ENRICHMENT_NEWS]
        ++ "?" ++ urlSearchParams (toQueryPairs [("q", JValue.str enrichQuery)]) ∧
    ∀ method : Option String, method ≠ some "GET" →
      (summarize s isUrl input options method).init.body
        = some (summarizeData s isUrl input options) := by
  refine ⟨lookupQS_toQueryPairs_filtered o k v ho hkv hnull,
    rfl, rfl, rfl, rfl, fun method hm => ?_⟩
  simp only [summarize]
  rw [if_neg hm]

/-- Witness for C5: a null-valued entry disappears from the query
pairs, and a method-less summarize keeps the null entry in its body
object. -/
theorem C5_null_filtering_witness :
    lookupQS (toQueryPairs [("cache", JValue.null)]) "cache" = none ∧
    (summarize ⟨"t", "v0", some [("cache", JValue.null)], none, none⟩
        (fun _ => false) "hi" none none).init.body
      = some (summarizeData ⟨"t", "v0", some [("cache", JValue.null)], none, none⟩
          (fun _ => false) "hi" none) :=
  ⟨(C5_null_filtering ⟨"t", "v0", some [("cache", JValue.null)], none, none⟩
      (fun _ => false) "hi" "q" "e" none [("cache", JValue.null)] "cache"
      JValue.null (by simp [objKeys]) (by simp [lookupKV]) rfl).1,
   (C5_null_filtering ⟨"t", "v0", some [("cache", JValue.null)], none, none⟩
      (fun _ => false) "hi" "q" "e" none [("cache", JValue.null)] "cache"
      JValue.null (by simp [objKeys]) (by simp [lookupKV]) rfl).2.2.2.2.2
      none (by decide)⟩

/-- C7: with settings that carry no explicit version, the constructed
client holds the default version and every method's request URL joins
the base URL, the "v0" segment and the endpoint path in that order. -/
theorem C7_default_version_segment (s : Settings) (h : s.version = none)
    (isUrl : String → Bool) (input query : String) (options : Option Obj) :
    (mkSettings s).version = KAGI_API_VERSIONS_v0 ∧
    (summarize (mkSettings s) isUrl input options none).url
      = toUrlStr [KAGI_BASE_API_URL, "v0", KAGI_SUMMARIZER_ENDPOINT] ∧
    (summarize (mkSettings s) isUrl input options (some "GET")).url
      = toUrlStr [KAGI_BASE_API_URL, "v0", KAGI_SUMMARIZER_ENDPOINT] ++ "?"
        ++ urlSearchParams (toQueryPairs (summarizeData (mkSettings s) isUrl input options)) ∧
    (search (mkSettings s) query options).url
      = toUrlStr [KAGI_BASE_API_URL, "v0", KAGI_SEARCH_ENDPOINT] ++ "?"
        ++ urlSearchParams (toQueryPairs (searchParams (mkSettings s) query options)) ∧
    (fastgpt (mkSettings s) query options).url
      = toUrlStr [KAGI_BASE_API_URL, "v0", KAGI_FASTGPT_ENDPOINT] ∧
    (enrichWeb (mkSettings s) query).url
      = toUrlStr [KAGI_BASE_API_URL, "v0", KAGI_ENRICHMENT_ENDPOINT,
          KAGI_ENRICHMENT_WEB]
        ++ "?" ++ urlSearchParams (toQueryPairs [("q", JValue.str query)]) ∧
    (enrichNews (mkSettings s) query).url
      = toUrlStr [KAGI_BASE_API_URL, "v0", KAGI_ENRICHMENT_ENDPOINT,
          KAGI_ENRICHMENT_NEWS]
        ++ "?" ++ urlSearchParams (toQueryPairs [("q", JValue.str query)]) := by
  have hv : (mkSettings s).version = "v0" := by
    simp [mkSettings, h, KAGI_API_VERSIONS_v0]
  refine ⟨hv, ?_, ?_, ?_, ?_, ?_, ?_⟩ <;>
    simp [summarize, search, fastgpt, enrichWeb, enrichNews, baseEnrich, hv]

/-- Witness for C7 with version-less settings. -/
theorem C7_default_version_segment_witness :
    (mkSettings ⟨"t", none, none, none, none⟩).version = KAGI_API_VERSIONS_v0 ∧
    (search (mkSettings ⟨"t", none, none, none, none⟩) "q" none).url
      = toUrlStr [KAGI_BASE_API_URL, "v0", KAGI_SEARCH_ENDPOINT] ++ "?"
        ++ urlSearchParams (toQueryPairs
            (searchParams (mkSettings ⟨"t", none, none, none, none⟩) "q" none)) := by
  have h := C7_default_version_segment ⟨"t", none, none, none, none⟩ rfl
    (fun _ => false) "i" "q" none
  exact ⟨h.1, h.2.2.2.1⟩

/-- C1 (counterexample): in summarize, the input-derived field is merged
after the defaults/options merge, so with summarizer defaults
`\x7btext: "a"\x7d`, call-time options `\x7btext: "b"\x7d` and the non-URL input
"hi", the outbound POST body carries `text = "hi"`: the option value
"b" does not appear, refuting the claimed precedence for summarize. -/
theorem C1_counterexample :
    (summarize ⟨"t", "v0", some [("text", JValue.str "a")], none, none⟩
        (fun _ => false) "hi" (some [("text", JValue.str "b")]) none).init.body
      = some [("text", JValue.str "hi")] ∧
    lookupKV [("text", JValue.str "hi")] "text" ≠ some (JValue.str "b") :=
  ⟨rfl, by decide⟩

/-- C1 (amended): for search and fastgpt the precedence built-in field
< defaults < options holds key-by-key, and a key shared by defaults
and options resolves to the option value; for summarize, options
overwrite defaults and the shared key resolves to the option value in
the outbound parameters except when it is the input-derived url/text
field, which is applied after the merge and overwrites both. -/
theorem C1_merge_precedence_amended (s : IntSettings) (query input : String)
    (isUrl : String → Bool) (o : Obj) (k : String) (v : JValue)
    (hsd : (objKeys (s.searchDefaults.getD [])).Nodup)
    (hfd : (objKeys (s.fastGPTDefaults.getD [])).Nodup)
    (ho : (objKeys o).Nodup) :
    (lookupKV o k = some v →
      lookupKV (searchParams s query (some o)) k = some v) ∧
    (lookupKV o k = none → lookupKV (s.searchDefaults.getD []) k = some v →
      lookupKV (searchParams s query (some o)) k = some v) ∧
    (lookupKV o "q" = none → lookupKV (s.searchDefaults.getD []) "q" = none →
      lookupKV (searchParams s query (some o)) "q" = some (JValue.str query)) ∧
    (lookupKV o k = some v →
      lookupKV (fastgptData s query (some o)) k = some v) ∧
    (lookupKV o k = none → lookupKV (s.fastGPTDefaults.getD []) k = some v →
      lookupKV (fastgptData s query (some o)) k = some v) ∧
    (lookupKV o "query" = none → lookupKV (s.fastGPTDefaults.getD []) "query" = none →
      lookupKV (fastgptData s query (some o)) "query" = some (JValue.str query)) ∧
    (lookupKV o k = some v → k ≠ (if isUrl input then "url" else "text") →
      lookupKV (summarizeData s isUrl input (some o)) k = some v) ∧
    lookupKV (summarizeData s isUrl input (some o))
      (if isUrl input then "url" else "text") = some (JValue.str input) := by
  have hsm : (objKeys (merge (s.searchDefaults.getD []) o)).Nodup :=
    nodup_objKeys_merge _ _ hsd
  have hfm : (objKeys (merge (s.fastGPTDefaults.getD []) o)).Nodup :=
    nodup_objKeys_merge _ _ hfd
  refine ⟨fun h => ?_, fun h hd => ?_, fun h hd => ?_, fun h => ?_,
    fun h hd => ?_, fun h hd => ?_, fun h hk => ?_,
    lookupKV_summarizeData_derived s isUrl input (some o)⟩
  · exact lookupKV_merge_some _ _ _ _ hsm (lookupKV_merge_some _ _ _ _ ho h)
  · refine lookupKV_merge_some _ _ _ _ hsm ?_
    simp only [Option.getD_some]
    rw [lookupKV_merge_none _ _ _ h]
    exact hd
  · have hm : lookupKV (merge (s.searchDefaults.getD []) o) "q" = none := by
      rw [lookupKV_merge_none _ _ _ h]
      exact hd
    rw [searchParams]
    simp only [Option.getD_some]
    rw [lookupKV_merge_none _ _ _ hm]
    simp [lookupKV]
  · exact lookupKV_merge_some _ _ _ _ hfm (lookupKV_merge_some _ _ _ _ ho h)
  · refine lookupKV_merge_some _ _ _ _ hfm ?_
    simp only [Option.getD_some]
    rw [lookupKV_merge_none _ _ _ h]
    exact hd
  · have hm : lookupKV (merge (s.fastGPTDefaults.getD []) o) "query" = none := by
      rw [lookupKV_merge_none _ _ _ h]
      exact hd
    rw [fastgptData]
    simp only [Option.getD_some]
    rw [lookupKV_merge_none _ _ _ hm]
    simp [lookupKV]
  · unfold summarizeData
    by_cases hu : isUrl input
    · rw [if_pos hu] at hk ⊢
      rw [lookupKV_merge_none _ _ _
        (by simp only [lookupKV]; rw [if_neg (fun h' : "url" = k => hk h'.symm)])]
      exact lookupKV_merge_some _ _ _ _ ho h
    · rw [if_neg hu] at hk ⊢
      rw [lookupKV_merge_none _ _ _
        (by simp only [lookupKV]; rw [if_neg (fun h' : "text" = k => hk h'.symm)])]
      exact lookupKV_merge_some _ _ _ _ ho h

/-- Witness for the amended C1: a shared `limit` key resolves to the
option value for search, and a shared key other than the derived
`text` field resolves to the option value for summarize's outbound
parameters. -/
theorem C1_merge_precedence_amended_witness :
    lookupKV (searchParams ⟨"t", "v0", none, some [("limit", JValue.num 1)], none⟩
        "q0" (some [("limit", JValue.num 5)])) "limit" = some (JValue.num 5) ∧
    lookupKV (summarizeData ⟨"t", "v0", some [("lang", JValue.str "de")], none, none⟩
        (fun _ => false) "hi" (some [("lang", JValue.str "en")])) "lang"
      = some (JValue.str "en") :=
  ⟨(C1_merge_precedence_amended
      ⟨"t", "v0", none, some [("limit", JValue.num 1)], none⟩ "q0" "hi"
      (fun _ => false) [("limit", JValue.num 5)] "limit" (JValue.num 5)
      (by simp [objKeys]) (by simp [objKeys]) (by simp [objKeys])).1 rfl,
   (C1_merge_precedence_amended
      ⟨"t", "v0", some [("lang", JValue.str "de")], none, none⟩ "q0" "hi"
      (fun _ => false) [("lang", JValue.str "en")] "lang" (JValue.str "en")
      (by simp [objKeys]) (by simp [objKeys]) (by simp [objKeys])).2.2.2.2.2.2.1
      rfl (by decide)⟩
